import Mathlib

/-!
Shallow embedding of `src/benchplot.py` (benchy).

Numeric values that the script holds as Python floats are modelled as
rationals (`ℚ`): the script only parses, stores, compares and linearly
interpolates them, so exact arithmetic is a faithful model of every
computation the claims mention.

Python strings are modelled as Lean `String`s; the handful of `str`
methods the script uses (`lower`, `split`, `in`, slicing at `rfind`,
`re.sub(r'^0+', ...)`) are re-implemented structurally below on the
underlying character lists, restricted to ASCII data (all inputs in
this script are ASCII CSV text).
-/

/-- Model of Python `str.lower` on one ASCII character. -/
def lowerChar (c : Char) : Char :=
  if 'A' ≤ c ∧ c ≤ 'Z' then Char.ofNat (c.toNat + 32) else c

/-- Model of Python `str.lower` (ASCII). -/
def pyLower (s : String) : String := ⟨s.data.map lowerChar⟩

/-- Helper: `listInfix needle l = true` iff `needle` occurs contiguously in `l`. -/
def listInfix (needle : List Char) : List Char → Bool
  | [] => needle.isEmpty
  | h :: t => needle.isPrefixOf (h :: t) || listInfix needle t

/-- Model of Python `needle in hay` substring containment. -/
def strIn (needle hay : String) : Bool := listInfix needle.data hay.data

/-- Model of Python `str.split(sep)` for a one-character separator,
on the character list: `"".split(sep) = [""]`, separators at the ends
produce empty pieces. -/
def splitChar (sep : Char) (l : List Char) : List (List Char) :=
  l.foldr (fun c acc =>
    match acc with
    | [] => [[c]]
    | cur :: rest => if c = sep then [] :: (cur :: rest) else (c :: cur) :: rest) [[]]

/-- Model of Python `str.split(sep)` for a one-character separator. -/
def pySplit (sep : Char) (s : String) : List String := (splitChar sep s.data).map String.mk

/-- Source line 22: the four measurement names
(`all`, `time`, `memory`, `cpu`); `ColSpec.__init__` accepts exactly
these, so the measurement field of a constructed `ColSpec` is this type. -/
inductive Measurement
  | all
  | time
  | memory
  | cpu
deriving DecidableEq

/-- The measurement name string as it appears in spec tokens and headers. -/
def measStr : Measurement → String
  | .all => "all"
  | .time => "time"
  | .memory => "memory"
  | .cpu => "cpu"

/-- The three statistics `ColSpec.__init__` accepts (`VALID_STATS`). -/
inductive Stat
  | mean
  | median
  | min
deriving DecidableEq

/-- The statistic name string as it appears in spec tokens and headers. -/
def statStr : Stat → String
  | .mean => "mean"
  | .median => "median"
  | .min => "min"

/-- Mapping `OFFSET_MEASUREMENTS` (line 41): all and time map to 0, memory
to 1, cpu to 2. -/
def OFFSET_MEASUREMENTS : Measurement → ℕ
  | .all => 0
  | .time => 0
  | .memory => 1
  | .cpu => 2

/-- Mapping `OFFSET_STATS` (line 40): mean maps to 0, median to 1, min to 2
and stddev to 3,
restricted to the stats a `ColSpec` can carry; the `stddev` entry is the
separate constant `OFFSET_STDDEV` below. -/
def OFFSET_STATS : Stat → ℕ
  | .mean => 0
  | .median => 1
  | .min => 2

/-- Constant `OFFSET_STATS[COL_STDDEV] = 3`, as used at line 132 to locate the
stddev slot relative to a column's position. -/
def OFFSET_STDDEV : ℕ := 3

/-- Source `class ColSpec` (lines 70-89): a validated (measurement, statistic)
pair.  The constructor's `exit_with_error` validation is modelled by
`mkColSpec` below; a value of this type is a spec that passed it. -/
structure ColSpec where
  measurement : Measurement
  stat : Stat
deriving DecidableEq

/-- Constant `ColSpec.VALID_MEASUREMENTS = [time, memory, cpu]` (line 74). -/
def ColSpec.VALID_MEASUREMENTS : List Measurement := [.time, .memory, .cpu]

/-- Method `ColSpec.get_index` (lines 87-89):
`1 + NUM_STATS * OFFSET_MEASUREMENTS[measurement] + OFFSET_STATS[stat]`.
The global `NUM_STATS` is passed explicitly as `num_stats`. -/
def ColSpec.get_index (c : ColSpec) (num_stats : ℕ) : ℕ :=
  1 + num_stats * OFFSET_MEASUREMENTS c.measurement + OFFSET_STATS c.stat

/-- Errors raised while parsing `--columns` spec tokens.
`invalidMeasurement` / `invalidStatistic` are the two `exit_with_error`
calls in `ColSpec.__init__`; `conflictingAll` is the `exit_with_error`
at lines 363-365; `emptyColumns` models the crash of iterating the
`None` that `get_list_arg` returns for an empty argument. -/
inductive SpecError
  | invalidMeasurement (s : String)
  | invalidStatistic (s : String)
  | conflictingAll
  | emptyColumns
deriving DecidableEq

/-- The measurement-name check of `ColSpec.__init__` (line 78). -/
def parseMeasurement (s : String) : Option Measurement :=
  if s = "all" then some .all
  else if s = "time" then some .time
  else if s = "memory" then some .memory
  else if s = "cpu" then some .cpu
  else none

/-- The statistic-name check of `ColSpec.__init__` (line 81). -/
def parseStat (s : String) : Option Stat :=
  if s = "mean" then some .mean
  else if s = "median" then some .median
  else if s = "min" then some .min
  else none

/-- Constructor `ColSpec.__init__` (lines 77-85): measurement validated first,
then the statistic; each failure is a distinct `exit_with_error`. -/
def mkColSpec (measurement stat : String) : Except SpecError ColSpec :=
  match parseMeasurement measurement with
  | none => .error (.invalidMeasurement measurement)
  | some m =>
    match parseStat stat with
    | none => .error (.invalidStatistic stat)
    | some s => .ok ⟨m, s⟩

instance {ε α : Type} [DecidableEq ε] [DecidableEq α] : DecidableEq (Except ε α) := fun x y =>
  match x, y with
  | .error a, .error b =>
    match decEq a b with
    | isTrue h => isTrue (h ▸ rfl)
    | isFalse h => isFalse (by intro hh; cases hh; exact h rfl)
  | .ok a, .ok b =>
    match decEq a b with
    | isTrue h => isTrue (h ▸ rfl)
    | isFalse h => isFalse (by intro hh; cases hh; exact h rfl)
  | .error _, .ok _ => isFalse (by intro hh; cases hh)
  | .ok _, .error _ => isFalse (by intro hh; cases hh)

/-- Function `get_list_arg` (lines 350-351): `arg.split(",") if arg else None`. -/
def get_list_arg (arg : String) : Option (List String) :=
  if arg = "" then none else some (pySplit ',' arg)

/-- The `for column in columns` loop of `parse_column_specs`
(lines 357-365).  `ncols` is `len(columns)`; the accumulated list is
`ret`.  After appending each parsed `ColSpec`, an `all` measurement in
a multi-token list aborts with `conflictingAll`. -/
def parseColumnsLoop (ncols : ℕ) : List String → List ColSpec → Except SpecError (List ColSpec)
  | [], ret => .ok ret
  | column :: rest, ret =>
    match (if strIn ":" column then
             let tmp := pySplit ':' column
             mkColSpec (tmp.getD 0 "") (tmp.getD 1 "")
           else
             mkColSpec column "mean") with
    | .error e => .error e
    | .ok c =>
      if c.measurement = Measurement.all ∧ 1 < ncols then
        .error SpecError.conflictingAll
      else
        parseColumnsLoop ncols rest (ret ++ [c])

/-- Function `parse_column_specs` (lines 354-370), composed with
`get_list_arg(columns_arg)`.  When the final spec's measurement is
`all`, the whole list is replaced by one `ColSpec` per
`VALID_MEASUREMENTS` entry, keeping that spec's statistic. -/
def parse_column_specs (columns_arg : String) : Except SpecError (List ColSpec) :=
  match get_list_arg columns_arg with
  | none => .error SpecError.emptyColumns
  | some columns =>
    match parseColumnsLoop columns.length columns [] with
    | .error e => .error e
    | .ok ret =>
      match ret.getLast? with
      | none => .error SpecError.emptyColumns
      | some last =>
        if last.measurement = Measurement.all then
          .ok (ColSpec.VALID_MEASUREMENTS.map (fun m => ⟨m, last.stat⟩))
        else
          .ok ret

/-- One CSV cell as `csv.reader(..., skipinitialspace=True)` delivers it:
its `text`, plus the outcome `asFloat` of Python `float(text)` —
`some q` when the text parses as the number `q`, `none` when `float`
raises `ValueError` (in particular `float("")` raises, so a cell with
`text = ""` has `asFloat = none`). -/
structure Cell where
  text : String
  asFloat : Option ℚ
deriving DecidableEq

instance : Inhabited Cell := ⟨⟨"", none⟩⟩

/-- A cell whose text parses as the float `q`. -/
def numCell (s : String) (q : ℚ) : Cell := ⟨s, some q⟩

/-- A non-empty cell whose text does not parse as a float. -/
def strCell (s : String) : Cell := ⟨s, none⟩

/-- An empty cell (`row[i] == ""`); `float("")` raises `ValueError`. -/
def emptyCell : Cell := ⟨"", none⟩

/-- Last-`"."` truncation of `PlotLine.append` (line 63):
`xtick_label[:xtick_label.rfind(".")]`, i.e. everything strictly before
the last `'.'`. -/
def truncAtLastDot (s : String) : String :=
  ⟨((s.data.reverse.dropWhile (fun c => c ≠ '.')).drop 1).reverse⟩

/-- Model of `re.sub` stripping the leading-zeros pattern (line 64). -/
def stripLeadingZeros (s : String) : String :=
  ⟨s.data.dropWhile (fun c => c = '0')⟩

/-- The x-tick label normalization inlined in `PlotLine.append`
(lines 62-64): truncate at the last `"."` when one is present, then
strip leading zeros. -/
def normalizeXtick (s : String) : String :=
  stripLeadingZeros (if strIn "." s then truncAtLastDot s else s)

/-- Source `class PlotLine` (lines 49-67).  `isMean` is set in `__init__` as
`"mean" in ylabel.lower()`. -/
structure PlotLine where
  data : List ℚ
  stddev : List ℚ
  ylabel : String
  isMean : Bool
  xtick_labels : List String
deriving DecidableEq

/-- Constructor `PlotLine.__init__` (lines 53-58). -/
def PlotLine.init (ylabel : String) : PlotLine :=
  ⟨[], [], ylabel, strIn "mean" (pyLower ylabel), []⟩

/-- Method `PlotLine.append` (lines 60-67): push the data value, push the
normalized x-tick label, and push the stddev value only when one was
passed (`if stddev_value is not None`). -/
def PlotLine.append (p : PlotLine) (data_value : ℚ) (xtick_label : String)
    (stddev_value : Option ℚ) : PlotLine :=
  { p with
    data := p.data ++ [data_value]
    xtick_labels := p.xtick_labels ++ [normalizeXtick xtick_label]
    stddev := p.stddev ++ stddev_value.toList }

/-- The process-wide mutable globals `NUM_STATS` (line 38) and
`HAS_STDDEV` (line 37), threaded explicitly through the reader. -/
structure GState where
  num_stats : ℕ
  has_stddev : Bool
deriving DecidableEq

/-- The module-level initial values: `NUM_STATS = 3`, `HAS_STDDEV = False`. -/
def initGState : GState := ⟨3, false⟩

/-- The ways one `get_csv_fields` pass terminates abnormally.
`indexError` models an uncaught Python `IndexError` from `row[i]` with
`i` out of range, and `valueError` an uncaught `ValueError` from
`float(...)`; neither constructor carries file or row identity because
the script attaches none (there is no `try`/`except` around either).
`corruptHeader` is the `exit_with_error` at lines 119-120, which names
the csv file and the offending header text. -/
inductive ReadError
  | indexError
  | valueError
  | corruptHeader (csv_file : String) (ylabel : String)
deriving DecidableEq

/-- The stddev scan over the header row (lines 109-113): true iff some
header cell contains `"stddev"` case-insensitively. -/
def stddevInHeader (header : List Cell) : Bool :=
  header.any (fun c => strIn "stddev" (pyLower c.text))

/-- The `for col in col_specs` loop over the header row
(lines 115-122): for each spec, read the header cell at the spec's
resolved position (`IndexError` when the row is too short), check that
its lowered text contains both the measurement and the statistic name
(else the "Corrupt csv file" `exit_with_error`), and create a
`PlotLine` labelled with the header text. -/
def headerPlotlines (csv_file : String) (num_stats : ℕ) (header : List Cell) :
    List ColSpec → Except ReadError (List PlotLine)
  | [] => .ok []
  | col :: rest =>
    match header.get? (col.get_index num_stats) with
    | none => .error ReadError.indexError
    | some cell =>
      if strIn (measStr col.measurement) (pyLower cell.text) = false ∨
          strIn (statStr col.stat) (pyLower cell.text) = false then
        .error (ReadError.corruptHeader csv_file cell.text)
      else
        match headerPlotlines csv_file num_stats header rest with
        | .error e => .error e
        | .ok pls => .ok (PlotLine.init cell.text :: pls)

/-- The `for (col, plotline) in zip(col_specs, plotlines)` loop over one
data row (lines 126-135).  For each spec: read the field at the resolved
position (`IndexError` when out of range); skip the spec when the field
is the empty string; otherwise `float` it (`ValueError` when it does not
parse).  When the plotline is mean-type, the slot at
`col.get_index() + OFFSET_STATS[COL_STDDEV]` is `float`ed as the stddev
whenever it is inside the row and `HAS_STDDEV` is set — with no
empty-string check, so an empty stddev slot raises `ValueError`. -/
def processRow (num_stats : ℕ) (has_stddev : Bool) (xtick_label : String) (row : List Cell) :
    List ColSpec → List PlotLine → Except ReadError (List PlotLine)
  | [], pls => .ok pls
  | _ :: _, [] => .ok []
  | col :: cols, pl :: pls =>
    match row.get? (col.get_index num_stats) with
    | none => .error ReadError.indexError
    | some cell =>
      if cell.text = "" then
        match processRow num_stats has_stddev xtick_label row cols pls with
        | .error e => .error e
        | .ok rest => .ok (pl :: rest)
      else
        match cell.asFloat with
        | none => .error ReadError.valueError
        | some data_value =>
          match (if pl.isMean then
                   (if col.get_index num_stats + OFFSET_STDDEV < row.length ∧ has_stddev = true then
                      match row.get? (col.get_index num_stats + OFFSET_STDDEV) with
                      | none => Except.ok (none : Option ℚ)
                      | some cell₂ =>
                        match cell₂.asFloat with
                        | none => Except.error ReadError.valueError
                        | some v => Except.ok (some v)
                    else Except.ok none)
                 else Except.ok none) with
          | .error e => .error e
          | .ok stddev_value =>
            match processRow num_stats has_stddev xtick_label row cols pls with
            | .error e => .error e
            | .ok rest => .ok (pl.append data_value xtick_label stddev_value :: rest)

/-- The `for row in reader` loop of `get_csv_fields` (lines 102-135).
Rows of length zero are skipped; the first remaining row is the header:
it may set the globals (`NUM_STATS = 4`, `HAS_STDDEV = True`) when the
stddev marker occurs in any of its cells — and leaves them untouched,
including any value carried over from a previous file, otherwise — and
is resolved into the initial plotlines.  Every later row is a data row
processed under the then-current globals; `row[0]` is its x-tick label. -/
def csvRows (csv_file : String) (col_specs : List ColSpec) :
    List (List Cell) → GState → Option (List PlotLine) →
    Except ReadError (Option (List PlotLine) × GState)
  | [], g, plotlines => .ok (plotlines, g)
  | row :: rest, g, plotlines =>
    if row.length = 0 then csvRows csv_file col_specs rest g plotlines
    else
      match plotlines with
      | none =>
        match headerPlotlines csv_file
            (if stddevInHeader row then GState.mk 4 true else g).num_stats row col_specs with
        | .error e => .error e
        | .ok newpls =>
          csvRows csv_file col_specs rest
            (if stddevInHeader row then GState.mk 4 true else g) (some newpls)
      | some cur =>
        match processRow g.num_stats g.has_stddev (row.headI).text row col_specs cur with
        | .error e => .error e
        | .ok newpls => csvRows csv_file col_specs rest g (some newpls)

/-- Function `get_csv_fields` (lines 92-137), one pass over one csv file whose
(whitespace-stripped) rows are `rows`.  The pre-call values of the
globals enter as `g`; the returned pair carries the plotlines the
source returns (`none` when the file had no non-empty row) together
with the post-call globals. -/
def get_csv_fields (csv_file : String) (rows : List (List Cell)) (col_specs : List ColSpec)
    (g : GState) : Except ReadError (Option (List PlotLine) × GState) :=
  csvRows csv_file col_specs rows g none

/-- Floor of a rational, computed as the source's `math.floor` does on
the exact value: `num / den` in floor division (`den > 0`). -/
def ratFloor (q : ℚ) : ℤ := q.num / (q.den : ℤ)

/-- Ceiling of a rational (`math.ceil`). -/
def ratCeil (q : ℚ) : ℤ := -(ratFloor (-q))

/-- Python list indexing `l[i]`: non-negative indexes read from the
front, negative indexes from the back, anything out of range raises
`IndexError` (modelled as `none`). -/
def pyGet (l : List ℚ) (i : ℤ) : Option ℚ :=
  if 0 ≤ i then l.get? i.toNat
  else if 0 ≤ i + l.length then l.get? (i + (l.length : ℤ)).toNat
  else none

/-- The ascending-sorted list that `values.sort()` (line 150) turns the
caller's list into: `percentile` mutates its argument in place, and this
is the state of that list after any call on it. -/
def percentileSorted (values : List ℚ) : List ℚ :=
  values.insertionSort (fun a b => a ≤ b)

/-- Function `percentile` (lines 140-158): `None` on an empty list; otherwise
the list is sorted in place, `k = (len(values)-1) * percent`,
`f = floor(k)`, `c = ceil(k)`; when `f == c` the element at `int(k)`
(which equals `f`, `k` being an exact integer there) is returned, and
otherwise `values[int(f)]*(c-k) + values[int(c)]*(k-f)`.  Out-of-range
indexing (possible only for `percent` outside `[0, 1]`) is collapsed
into `none` like the empty case. -/
def percentile (values : List ℚ) (percent : ℚ) : Option ℚ :=
  if values.length = 0 then none
  else
    let sortedValues := percentileSorted values
    let k : ℚ := ((values.length - 1 : ℕ) : ℚ) * percent
    let f : ℤ := ratFloor k
    let c : ℤ := ratCeil k
    if f = c then pyGet sortedValues f
    else
      match pyGet sortedValues f, pyGet sortedValues c with
      | some v0, some v1 => some (v0 * ((c : ℚ) - k) + v1 * (k - (f : ℚ)))
      | _, _ => none

/-- The series-aggregation loop of `plot_data` (lines 183-196), on the
per-file collections that `get_csv_fields` returned: the first
collection seeds `all_plotlines = [[plotline] for plotline in plotlines]`,
and every later collection is merged with
`for (data, plotline) in zip(all_plotlines, plotlines): data.append(plotline)` —
an in-place append on the zipped prefix, so the matrix keeps the first
collection's row count: rows beyond a shorter later collection keep
their previous entries (`acc.drop plotlines.length`), and surplus
plotlines of a longer later collection are ignored by `zip`.  `none` is
the initial `all_plotlines = None` (no file processed). -/
def plot_data_aggregate (collections : List (List PlotLine)) : Option (List (List PlotLine)) :=
  collections.foldl (fun all_plotlines plotlines =>
    match all_plotlines with
    | none => some (plotlines.map (fun p => [p]))
    | some acc =>
      some (acc.zipWith (fun data plotline => data ++ [plotline]) plotlines ++
        acc.drop plotlines.length)) none

/-- Modelled from the spec, §3 / §4.4: the percentile a reader of the
spec would compute over the already-sorted pooled values — rank
`k = (n-1)*p`; the element at `k` when `k` is an exact index; otherwise
`sorted[floor k] * (ceil k - k) + sorted[ceil k] * (k - floor k)`.
Stated with Mathlib's `⌊⌋`/`⌈⌉` so the comparison with `percentile`
is against an independent formulation. -/
def specPercentileFormula (sorted : List ℚ) (p : ℚ) : ℚ :=
  let k : ℚ := ((sorted.length : ℚ) - 1) * p
  if (⌊k⌋ : ℤ) = ⌈k⌉ then sorted.getD (⌊k⌋).toNat 0
  else
    sorted.getD (⌊k⌋).toNat 0 * ((⌈k⌉ : ℚ) - k) +
      sorted.getD (⌈k⌉).toNat 0 * (k - (⌊k⌋ : ℚ))

/-- The spec token `memory:mean`. -/
def memMeanSpec : ColSpec := ⟨.memory, .mean⟩

/-- The spec token `time:mean`. -/
def timeMeanSpec : ColSpec := ⟨.time, .mean⟩

/-- A csv table in the 4-stride layout (stddev blocks present),
one data row `q1`. -/
def tableWithStddev : List (List Cell) :=
  [[strCell "benchmark", strCell "time mean", strCell "time median", strCell "time min",
    strCell "time stddev", strCell "memory mean", strCell "memory median",
    strCell "memory min", strCell "memory stddev", strCell "cpu mean",
    strCell "cpu median", strCell "cpu min", strCell "cpu stddev"],
   [strCell "q1", numCell "1" 1, numCell "1" 1, numCell "1" 1, numCell "1" 1,
    numCell "2" 2, numCell "2" 2, numCell "2" 2, numCell "2" 2,
    numCell "3" 3, numCell "3" 3, numCell "3" 3, numCell "3" 3]]

/-- A csv table in the 3-stride layout (no stddev block anywhere),
one data row `q1`. -/
def tablePlain : List (List Cell) :=
  [[strCell "benchmark", strCell "time mean", strCell "time median", strCell "time min",
    strCell "memory mean", strCell "memory median", strCell "memory min",
    strCell "cpu mean", strCell "cpu median", strCell "cpu min"],
   [strCell "q1", numCell "1" 1, numCell "1" 1, numCell "1" 1,
    numCell "2" 2, numCell "2" 2, numCell "2" 2,
    numCell "3" 3, numCell "3" 3, numCell "3" 3]]

/-- A 4-stride table whose data row has an empty stddev slot for the
`time` block (`float("")` raises `ValueError` at line 134). -/
def tableEmptyStddev : List (List Cell) :=
  [[strCell "benchmark", strCell "time mean", strCell "time median", strCell "time min",
    strCell "time stddev"],
   [strCell "q1", numCell "10" 10, numCell "9" 9, numCell "8" 8, emptyCell]]

/-- A 3-stride table whose data row holds the non-numeric text `abc`
in the `time mean` field. -/
def tableMalformed : List (List Cell) :=
  [[strCell "benchmark", strCell "time mean", strCell "time median", strCell "time min"],
   [strCell "q1", strCell "abc", numCell "9" 9, numCell "8" 8]]

example : get_csv_fields "a.csv" tableWithStddev [memMeanSpec] initGState =
    .ok (some [⟨[2], [2], "memory mean", true, ["q1"]⟩], ⟨4, true⟩) := by decide

example : get_csv_fields "b.csv" tablePlain [memMeanSpec] (GState.mk 4 true) =
    .error (ReadError.corruptHeader "b.csv" "memory median") := by decide

example : get_csv_fields "b.csv" tablePlain [memMeanSpec] initGState =
    .ok (some [⟨[2], [], "memory mean", true, ["q1"]⟩], initGState) := by decide

example : get_csv_fields "c.csv" tableEmptyStddev [timeMeanSpec] initGState =
    .error ReadError.valueError := by decide

example : get_csv_fields "d.csv" tableMalformed [timeMeanSpec] initGState =
    .error ReadError.valueError := by decide

example : ((PlotLine.init "time mean").append 10 "007.final" none).xtick_labels = ["7"] := by
  decide

example : plot_data_aggregate
      [[PlotLine.init "time mean", PlotLine.init "memory mean"], [PlotLine.init "cpu mean"]] =
    some [[PlotLine.init "time mean", PlotLine.init "cpu mean"],
          [PlotLine.init "memory mean"]] := by decide

example : parse_column_specs "all:min" =
    .ok [⟨.time, .min⟩, ⟨.memory, .min⟩, ⟨.cpu, .min⟩] := by decide

example : parse_column_specs "time,cpu:median" =
    .ok [⟨.time, .mean⟩, ⟨.cpu, .median⟩] := by decide

example : parse_column_specs "all,time" = .error SpecError.conflictingAll := by decide

example : parse_column_specs "time:max" = .error (SpecError.invalidStatistic "max") := by decide

example : (⟨.cpu, .mean⟩ : ColSpec).get_index 3 = 7 := by decide

example : (⟨.cpu, .mean⟩ : ColSpec).get_index 4 = 9 := by decide

theorem ratFloor_eq_floor (q : ℚ) : ratFloor q = ⌊q⌋ := by
  rw [ratFloor, Rat.floor_def]

theorem ratCeil_eq_ceil (q : ℚ) : ratCeil q = ⌈q⌉ := by
  rw [ratCeil, ratFloor_eq_floor, Int.floor_neg, neg_neg]

theorem pyGet_nonneg (l : List ℚ) (i : ℤ) (h0 : 0 ≤ i) (hl : i.toNat < l.length) :
    pyGet l i = some (l.getD i.toNat 0) := by
  rw [pyGet, if_pos h0, List.get?_eq_get hl, List.getD_eq_get l 0 hl]

/-- C7: resolving the single token `all:min` yields exactly the three
ColumnSpecs time:min, memory:min, cpu:min in that order, and in general
a sole resolved `all` token expands to one ColumnSpec per measurement in
the fixed order time, memory, cpu, each keeping the requested
statistic. -/
theorem all_expands_fixed_order :
    parse_column_specs "all:min" =
      .ok [⟨.time, .min⟩, ⟨.memory, .min⟩, ⟨.cpu, .min⟩] ∧
    ∀ s : Stat, parse_column_specs ("all:" ++ statStr s) =
      .ok [⟨.time, s⟩, ⟨.memory, s⟩, ⟨.cpu, s⟩] :=
  ⟨by decide, fun s => by cases s <;> decide⟩

/-- C8: the resolved field position of every ColumnSpec is
`1 + stride * measurement_index + statistic_index`; moving the stride
from 3 to 4 shifts a spec's position by exactly its measurement index,
and the relative ordering of statistics inside one measurement is the
same under both strides. -/
theorem field_position_formula :
    (∀ (c : ColSpec) (stride : ℕ),
       c.get_index stride =
         1 + stride * OFFSET_MEASUREMENTS c.measurement + OFFSET_STATS c.stat) ∧
    (∀ c : ColSpec, c.get_index 4 = c.get_index 3 + OFFSET_MEASUREMENTS c.measurement) ∧
    (∀ c₁ c₂ : ColSpec, c₁.measurement = c₂.measurement →
       (c₁.get_index 3 < c₂.get_index 3 ↔ c₁.get_index 4 < c₂.get_index 4)) := by
  refine ⟨fun c stride => rfl, fun c => ?_, fun c₁ c₂ h => ?_⟩
  · simp only [ColSpec.get_index]
    omega
  · simp only [ColSpec.get_index, h]
    omega

/-- Witness for `field_position_formula` at time:mean vs time:median. -/
theorem field_position_formula_witness :
    (⟨.time, .mean⟩ : ColSpec).measurement = (⟨.time, .median⟩ : ColSpec).measurement ∧
    ((⟨.time, .mean⟩ : ColSpec).get_index 3 < (⟨.time, .median⟩ : ColSpec).get_index 3 ↔
     (⟨.time, .mean⟩ : ColSpec).get_index 4 < (⟨.time, .median⟩ : ColSpec).get_index 4) :=
  ⟨rfl, field_position_formula.2.2 _ _ rfl⟩

/-- C2 counterexample: the x-tick label `007.final` is normalized by the
code to `7` — truncation at the last `"."` removes `.final` itself — and
not to the `7.final` the claim promises. -/
theorem label_normalization_counterexample :
    ((PlotLine.init "time mean").append 10 "007.final" none).xtick_labels = ["7"] ∧
    ((PlotLine.init "time mean").append 10 "007.final" none).xtick_labels ≠ ["7.final"] :=
  ⟨by decide, by decide⟩

/-- C2 amended: every appended x-tick label is normalized by truncating
at the last `"."` when one is present — dropping the separator and
everything after it — and then stripping leading zeros; in particular
`007.final` normalizes to `7`. -/
theorem label_normalization_order :
    (∀ (p : PlotLine) (v : ℚ) (sd : Option ℚ) (s : String),
       (p.append v s sd).xtick_labels = p.xtick_labels ++ [normalizeXtick s]) ∧
    (∀ s : String, strIn "." s = true →
       normalizeXtick s = stripLeadingZeros (truncAtLastDot s)) ∧
    (∀ (p : PlotLine) (v : ℚ) (sd : Option ℚ),
       (p.append v "007.final" sd).xtick_labels = p.xtick_labels ++ ["7"]) := by
  refine ⟨fun p v sd s => rfl, fun s h => ?_, fun p v sd => ?_⟩
  · rw [normalizeXtick, if_pos h]
  · have h7 : normalizeXtick "007.final" = "7" := by decide
    simp only [PlotLine.append, h7]

/-- Witness for `label_normalization_order` at the label `007.final`. -/
theorem label_normalization_order_witness :
    strIn "." "007.final" = true ∧
    normalizeXtick "007.final" = stripLeadingZeros (truncAtLastDot "007.final") :=
  ⟨by decide, label_normalization_order.2.1 "007.final" (by decide)⟩

/-- C5 counterexample: a non-empty, non-numeric `time mean` field
(`abc`) aborts the read with the bare `ValueError` of `float(...)`
(the `valueError` constructor carries no file or row identity, exactly
as the uncaught exception carries none), not with an error naming the
file and the row. -/
theorem malformed_value_counterexample :
    get_csv_fields "d.csv" tableMalformed [timeMeanSpec] initGState =
      .error ReadError.valueError := by decide

/-- C5 amended: whenever the data field selected by a ColumnSpec is
non-empty and fails to parse as a float, extraction fails by
propagating the parser's `ValueError`, which carries neither file nor
row identity. -/
theorem malformed_value_plain_error :
    ∀ (num_stats : ℕ) (has_stddev : Bool) (xl : String) (row : List Cell) (c : ColSpec)
      (pl : PlotLine) (cell : Cell),
      row.get? (c.get_index num_stats) = some cell →
      cell.text ≠ "" →
      cell.asFloat = none →
      processRow num_stats has_stddev xl row [c] [pl] = .error ReadError.valueError := by
  intro num_stats has_stddev xl row c pl cell h1 h2 h3
  simp only [processRow, h1, if_neg h2, h3]

/-- Witness for `malformed_value_plain_error` at the `tableMalformed`
data row. -/
theorem malformed_value_plain_error_witness :
    ([strCell "q1", strCell "abc", numCell "9" 9, numCell "8" 8].get?
        (timeMeanSpec.get_index 3) = some (strCell "abc")) ∧
    (strCell "abc").text ≠ "" ∧
    (strCell "abc").asFloat = none ∧
    processRow 3 false "q1" [strCell "q1", strCell "abc", numCell "9" 9, numCell "8" 8]
        [timeMeanSpec] [PlotLine.init "time mean"] = .error ReadError.valueError :=
  ⟨by decide, by decide, by decide,
    malformed_value_plain_error 3 false "q1" _ timeMeanSpec (PlotLine.init "time mean")
      (strCell "abc") (by decide) (by decide) (by decide)⟩

/-- C9: when a header or data row is shorter than a requested
ColumnSpec's resolved field position, the reader's cell access is an
unguarded out-of-bounds indexing that surfaces as the bare
`IndexError` (a constructor carrying no file or row context), not as a
named schema or value report. -/
theorem short_row_raises_index_error :
    (∀ (csv_file : String) (num_stats : ℕ) (header : List Cell) (c : ColSpec),
       header.get? (c.get_index num_stats) = none →
       headerPlotlines csv_file num_stats header [c] = .error ReadError.indexError) ∧
    (∀ (num_stats : ℕ) (has_stddev : Bool) (xl : String) (row : List Cell) (c : ColSpec)
       (pl : PlotLine),
       row.get? (c.get_index num_stats) = none →
       processRow num_stats has_stddev xl row [c] [pl] = .error ReadError.indexError) ∧
    (∀ (csv_file : String) (g : GState) (c : ColSpec) (header : List Cell),
       header.length ≠ 0 →
       header.get? (c.get_index (if stddevInHeader header then 4 else g.num_stats)) = none →
       get_csv_fields csv_file [header] [c] g = .error ReadError.indexError) := by
  have hHeader : ∀ (csv_file : String) (num_stats : ℕ) (header : List Cell) (c : ColSpec),
      header.get? (c.get_index num_stats) = none →
      headerPlotlines csv_file num_stats header [c] = .error ReadError.indexError := by
    intro csv_file num_stats header c h
    simp only [headerPlotlines, h]
  refine ⟨hHeader, fun num_stats has_stddev xl row c pl h => ?_,
    fun csv_file g c header hne h => ?_⟩
  · simp only [processRow, h]
  · rw [get_csv_fields, csvRows, if_neg hne]
    by_cases hsd : stddevInHeader header
    · simp only [hsd, if_true] at h ⊢
      rw [hHeader _ _ _ _ h]
    · simp only [hsd, Bool.false_eq_true, if_false] at h ⊢
      rw [hHeader _ _ _ _ h]

/-- Witness for `short_row_raises_index_error` on a one-cell header. -/
theorem short_row_raises_index_error_witness :
    ([strCell "name"] : List Cell).length ≠ 0 ∧
    ([strCell "name"] : List Cell).get?
      (timeMeanSpec.get_index
        (if stddevInHeader [strCell "name"] then 4 else initGState.num_stats)) = none ∧
    get_csv_fields "w.csv" [[strCell "name"]] [timeMeanSpec] initGState =
      .error ReadError.indexError :=
  ⟨by decide, by decide,
    short_row_raises_index_error.2.2 "w.csv" initGState timeMeanSpec [strCell "name"]
      (by decide) (by decide)⟩

/-- C6 counterexample: two collections with different series counts
(2 vs 1) are aggregated into a silently ragged Series Matrix — the
second row keeps only its first-collection entry — and no failure of
any kind is produced. -/
theorem shape_mismatch_counterexample :
    plot_data_aggregate
        [[PlotLine.init "time mean", PlotLine.init "memory mean"],
         [PlotLine.init "cpu mean"]] =
      some [[PlotLine.init "time mean", PlotLine.init "cpu mean"],
            [PlotLine.init "memory mean"]] := by decide

theorem aggLoop_some (rest : List (List PlotLine)) :
    ∀ acc : List (List PlotLine),
      List.foldl (fun all_plotlines plotlines =>
        match all_plotlines with
        | none => some (plotlines.map (fun p => [p]))
        | some acc =>
          some (acc.zipWith (fun data plotline => data ++ [plotline]) plotlines ++
            acc.drop plotlines.length))
        (some acc) rest =
      some (List.foldl (fun acc plotlines =>
        acc.zipWith (fun data plotline => data ++ [plotline]) plotlines ++
          acc.drop plotlines.length) acc rest) := by
  induction rest with
  | nil => intro acc; rfl
  | cons r rs ih =>
    intro acc
    rw [List.foldl_cons, List.foldl_cons]
    exact ih _

theorem aggFold_length (rest : List (List PlotLine)) :
    ∀ acc : List (List PlotLine),
      (List.foldl (fun acc plotlines =>
        acc.zipWith (fun data plotline => data ++ [plotline]) plotlines ++
          acc.drop plotlines.length) acc rest).length = acc.length := by
  induction rest with
  | nil => intro acc; rfl
  | cons r rs ih =>
    intro acc
    rw [List.foldl_cons, ih]
    rw [List.length_append, List.length_zipWith, List.length_drop]
    omega

/-- C6 amended: the aggregation loop of `plot_data` performs no shape
check and cannot fail: after the first collection seeds the matrix,
each later collection is merged by `zip` with in-place appends, so a
shorter later collection only extends the zipped prefix (leaving the
remaining rows with one fewer entry), a longer one has its surplus
series dropped, the matrix always keeps the first collection's row
count, and a Series Matrix is always produced. -/
theorem aggregation_never_fails :
    (∀ (first : List PlotLine) (rest : List (List PlotLine)),
       plot_data_aggregate (first :: rest) =
         some (List.foldl (fun acc plotlines =>
           acc.zipWith (fun data plotline => data ++ [plotline]) plotlines ++
             acc.drop plotlines.length)
           (first.map (fun p => [p])) rest)) ∧
    (∀ (first : List PlotLine) (rest : List (List PlotLine)) (m : List (List PlotLine)),
       plot_data_aggregate (first :: rest) = some m →
       m.length = first.length) := by
  have hfold : ∀ (first : List PlotLine) (rest : List (List PlotLine)),
      plot_data_aggregate (first :: rest) =
        some (List.foldl (fun acc plotlines =>
          acc.zipWith (fun data plotline => data ++ [plotline]) plotlines ++
            acc.drop plotlines.length)
          (first.map (fun p => [p])) rest) := by
    intro first rest
    rw [plot_data_aggregate, List.foldl_cons]
    exact aggLoop_some rest _
  refine ⟨hfold, fun first rest m hm => ?_⟩
  rw [hfold] at hm
  cases hm
  rw [aggFold_length, List.length_map]

/-- Witness for `aggregation_never_fails` on the 2-vs-1 collections. -/
theorem aggregation_never_fails_witness :
    plot_data_aggregate
        [[PlotLine.init "time mean", PlotLine.init "memory mean"],
         [PlotLine.init "cpu mean"]] =
      some [[PlotLine.init "time mean", PlotLine.init "cpu mean"],
            [PlotLine.init "memory mean"]] ∧
    ([[PlotLine.init "time mean", PlotLine.init "cpu mean"],
      [PlotLine.init "memory mean"]] : List (List PlotLine)).length =
      [PlotLine.init "time mean", PlotLine.init "memory mean"].length :=
  ⟨by decide,
    aggregation_never_fails.2 [PlotLine.init "time mean", PlotLine.init "memory mean"]
      [[PlotLine.init "cpu mean"]] _ (by decide)⟩

/-- C3 counterexample: a mean-type series in a 4-stride table whose
data row has an empty stddev slot does not get "no stddev attached" —
the read crashes with the `ValueError` of `float("")`. -/
theorem empty_stddev_crash_counterexample :
    get_csv_fields "c.csv" tableEmptyStddev [timeMeanSpec] initGState =
      .error ReadError.valueError := by decide

/-- C3 amended: for a row whose selected field parses, a stddev value
is attached exactly when the series is mean-type, `HAS_STDDEV` is set,
the stddev slot lies inside the row AND that slot parses as a float;
when the slot is inside the row but empty (or otherwise unparseable),
extraction fails with `ValueError` instead of skipping the stddev; when
the slot lies outside the row, or the series is not mean-type, or
`HAS_STDDEV` is unset, no stddev is attached and the row succeeds. -/
theorem stddev_attachment_conditions :
    ∀ (num_stats : ℕ) (xl : String) (row : List Cell) (c : ColSpec) (pl : PlotLine)
      (cell : Cell) (v : ℚ),
      row.get? (c.get_index num_stats) = some cell →
      cell.text ≠ "" →
      cell.asFloat = some v →
      (∀ (cell₂ : Cell) (w : ℚ),
         pl.isMean = true →
         c.get_index num_stats + OFFSET_STDDEV < row.length →
         row.get? (c.get_index num_stats + OFFSET_STDDEV) = some cell₂ →
         cell₂.asFloat = some w →
         processRow num_stats true xl row [c] [pl] = .ok [pl.append v xl (some w)]) ∧
      (∀ cell₂ : Cell,
         pl.isMean = true →
         c.get_index num_stats + OFFSET_STDDEV < row.length →
         row.get? (c.get_index num_stats + OFFSET_STDDEV) = some cell₂ →
         cell₂.asFloat = none →
         processRow num_stats true xl row [c] [pl] = .error ReadError.valueError) ∧
      (pl.isMean = true →
         ¬c.get_index num_stats + OFFSET_STDDEV < row.length →
         processRow num_stats true xl row [c] [pl] = .ok [pl.append v xl none]) ∧
      processRow num_stats false xl row [c] [pl] = .ok [pl.append v xl none] ∧
      (pl.isMean = false → ∀ has_stddev : Bool,
         processRow num_stats has_stddev xl row [c] [pl] = .ok [pl.append v xl none]) := by
  intro num_stats xl row c pl cell v h1 h2 h3
  refine ⟨fun cell₂ w hm hlt hc2 hw => ?_, fun cell₂ hm hlt hc2 hn => ?_,
    fun hm hout => ?_, ?_, fun hm hs => ?_⟩
  · simp only [processRow, h1, if_neg h2, h3, hm, if_true]
    rw [if_pos ⟨hlt, trivial⟩, hc2]
    simp only [hw, processRow]
  · simp only [processRow, h1, if_neg h2, h3, hm, if_true]
    rw [if_pos ⟨hlt, trivial⟩, hc2]
    simp only [hn]
  · simp only [processRow, h1, if_neg h2, h3, hm, if_true]
    rw [if_neg (fun hcon => hout hcon.1)]
  · simp only [processRow, h1, if_neg h2, h3]
    have : ¬(c.get_index num_stats + OFFSET_STDDEV < row.length ∧ false = true) := by
      intro hcon
      exact Bool.false_ne_true hcon.2
    rw [if_neg this]
    cases hpm : pl.isMean <;> simp only [processRow, if_true, if_false, Bool.false_eq_true]
  · simp only [processRow, h1, if_neg h2, h3, hm, Bool.false_eq_true, if_false, processRow]

/-- Witness for `stddev_attachment_conditions` at the empty-stddev row
of `tableEmptyStddev`. -/
theorem stddev_attachment_conditions_witness :
    ([strCell "q1", numCell "10" 10, numCell "9" 9, numCell "8" 8, emptyCell] : List Cell).get?
        (timeMeanSpec.get_index 4) = some (numCell "10" 10) ∧
    (numCell "10" 10).text ≠ "" ∧
    (numCell "10" 10).asFloat = some 10 ∧
    (PlotLine.init "time mean").isMean = true ∧
    timeMeanSpec.get_index 4 + OFFSET_STDDEV <
      ([strCell "q1", numCell "10" 10, numCell "9" 9, numCell "8" 8, emptyCell] : List Cell).length ∧
    ([strCell "q1", numCell "10" 10, numCell "9" 9, numCell "8" 8, emptyCell] : List Cell).get?
        (timeMeanSpec.get_index 4 + OFFSET_STDDEV) = some emptyCell ∧
    emptyCell.asFloat = none ∧
    processRow 4 true "q1" [strCell "q1", numCell "10" 10, numCell "9" 9, numCell "8" 8, emptyCell]
        [timeMeanSpec] [PlotLine.init "time mean"] = .error ReadError.valueError :=
  ⟨by decide, by decide, by decide, by decide, by decide, by decide, by decide,
    (stddev_attachment_conditions 4 "q1"
        [strCell "q1", numCell "10" 10, numCell "9" 9, numCell "8" 8, emptyCell]
        timeMeanSpec (PlotLine.init "time mean") (numCell "10" 10) 10
        (by decide) (by decide) (by decide)).2.1 emptyCell
      (by decide) (by decide) (by decide) (by decide)⟩

theorem csvRows_cons_none (csv_file : String) (col_specs : List ColSpec) (row : List Cell)
    (rest : List (List Cell)) (g : GState) :
    csvRows csv_file col_specs (row :: rest) g none =
      if row.length = 0 then csvRows csv_file col_specs rest g none
      else
        match headerPlotlines csv_file
            (if stddevInHeader row then GState.mk 4 true else g).num_stats row col_specs with
        | .error e => .error e
        | .ok newpls =>
          csvRows csv_file col_specs rest
            (if stddevInHeader row then GState.mk 4 true else g) (some newpls) := rfl

theorem csvRows_cons_some (csv_file : String) (col_specs : List ColSpec) (row : List Cell)
    (rest : List (List Cell)) (g : GState) (cur : List PlotLine) :
    csvRows csv_file col_specs (row :: rest) g (some cur) =
      if row.length = 0 then csvRows csv_file col_specs rest g (some cur)
      else
        match processRow g.num_stats g.has_stddev (row.headI).text row col_specs cur with
        | .error e => .error e
        | .ok newpls => csvRows csv_file col_specs rest g (some newpls) := rfl

/-- C1 counterexample: reading the 4-stride table `tableWithStddev`
first leaves the globals at `NUM_STATS = 4, HAS_STDDEV = True`, after
which the 3-stride table `tablePlain` is laid out with stride 4 and its
`memory:mean` position resolves to the `memory median` header cell —
the read aborts — although the very same table read from the initial
globals succeeds with stride 3.  The stride used for `tablePlain` is
therefore affected by the previously read table, not a function of its
own header alone. -/
theorem stride_contamination_counterexample :
    get_csv_fields "a.csv" tableWithStddev [memMeanSpec] initGState =
      .ok (some [⟨[2], [2], "memory mean", true, ["q1"]⟩], GState.mk 4 true) ∧
    get_csv_fields "b.csv" tablePlain [memMeanSpec] (GState.mk 4 true) =
      .error (ReadError.corruptHeader "b.csv" "memory median") ∧
    get_csv_fields "b.csv" tablePlain [memMeanSpec] initGState =
      .ok (some [⟨[2], [], "memory mean", true, ["q1"]⟩], initGState) :=
  ⟨by decide, by decide, by decide⟩

/-- C1 amended: the layout globals are process-wide and sticky — one
`get_csv_fields` pass either leaves them unchanged (carrying over
whatever a previous table set) or sets them to
`NUM_STATS = 4, HAS_STDDEV = True`, and once they hold that value they
hold it after every later pass; a table's stride is thus 4 whenever its
own header or any previously read table's header contained the stddev
marker, and field positions are recomputed from the current global
stride at each use. -/
theorem stride_globals_sticky :
    ∀ (csv_file : String) (rows : List (List Cell)) (col_specs : List ColSpec) (g : GState)
      (pls : Option (List PlotLine)) (g' : GState),
      get_csv_fields csv_file rows col_specs g = .ok (pls, g') →
      (g' = g ∨ g' = GState.mk 4 true) ∧
      (g = GState.mk 4 true → g' = GState.mk 4 true) := by
  intro csv_file rows col_specs
  have key : ∀ (rows : List (List Cell)) (g : GState) (pls0 res : Option (List PlotLine))
      (g' : GState),
      csvRows csv_file col_specs rows g pls0 = .ok (res, g') →
      g' = g ∨ g' = GState.mk 4 true := by
    intro rows
    induction rows with
    | nil =>
      intro g pls0 res g' h
      rw [show csvRows csv_file col_specs [] g pls0 = .ok (pls0, g) from rfl] at h
      cases h
      exact Or.inl rfl
    | cons row rest ih =>
      intro g pls0 res g' h
      cases pls0 with
      | none =>
        rw [csvRows_cons_none] at h
        by_cases hz : row.length = 0
        · rw [if_pos hz] at h
          exact ih g none res g' h
        · rw [if_neg hz] at h
          by_cases hsd : stddevInHeader row
          · simp only [hsd, if_true] at h
            cases hh : headerPlotlines csv_file (GState.mk 4 true).num_stats row col_specs with
            | error e => rw [hh] at h; cases h
            | ok newpls =>
              rw [hh] at h
              rcases ih (GState.mk 4 true) (some newpls) res g' h with h1 | h1
              · exact Or.inr h1
              · exact Or.inr h1
          · simp only [hsd, Bool.false_eq_true, if_false] at h
            cases hh : headerPlotlines csv_file g.num_stats row col_specs with
            | error e => rw [hh] at h; cases h
            | ok newpls =>
              rw [hh] at h
              exact ih g (some newpls) res g' h
      | some cur =>
        rw [csvRows_cons_some] at h
        by_cases hz : row.length = 0
        · rw [if_pos hz] at h
          exact ih g (some cur) res g' h
        · rw [if_neg hz] at h
          cases hp : processRow g.num_stats g.has_stddev (row.headI).text row col_specs cur with
          | error e => rw [hp] at h; cases h
          | ok newpls =>
            rw [hp] at h
            exact ih g (some newpls) res g' h
  intro g pls g' h
  have h1 := key rows g none pls g' h
  refine ⟨h1, fun hg => ?_⟩
  rcases h1 with h2 | h2
  · rw [h2, hg]
  · exact h2

/-- Witness for `stride_globals_sticky` on the read of `tableWithStddev`
from the initial globals. -/
theorem stride_globals_sticky_witness :
    get_csv_fields "a.csv" tableWithStddev [memMeanSpec] initGState =
      .ok (some [⟨[2], [2], "memory mean", true, ["q1"]⟩], GState.mk 4 true) ∧
    ((GState.mk 4 true = initGState ∨ GState.mk 4 true = GState.mk 4 true) ∧
     (initGState = GState.mk 4 true → GState.mk 4 true = GState.mk 4 true)) :=
  ⟨by decide,
    stride_globals_sticky "a.csv" tableWithStddev [memMeanSpec] initGState
      (some [⟨[2], [2], "memory mean", true, ["q1"]⟩]) (GState.mk 4 true) (by decide)⟩

theorem percentile_formula (values : List ℚ) (p : ℚ) (hne : values ≠ [])
    (hp0 : 0 ≤ p) (hp1 : p ≤ 1) :
    percentile values p = some (specPercentileFormula (percentileSorted values) p) := by
  have hn : values.length ≠ 0 := fun h => hne (List.length_eq_zero.mp h)
  have hn1 : 1 ≤ values.length := Nat.one_le_iff_ne_zero.mpr hn
  have hslen : (percentileSorted values).length = values.length :=
    List.length_insertionSort _ _
  have hcast : ((values.length - 1 : ℕ) : ℚ) = (values.length : ℚ) - 1 := by
    rw [Nat.cast_sub hn1, Nat.cast_one]
  have hk0 : (0 : ℚ) ≤ ((values.length - 1 : ℕ) : ℚ) * p :=
    mul_nonneg (Nat.cast_nonneg _) hp0
  have hkle : ((values.length - 1 : ℕ) : ℚ) * p ≤ (values.length : ℚ) - 1 := by
    rw [hcast]
    have hnn : (0 : ℚ) ≤ (values.length : ℚ) - 1 := by
      rw [← hcast]
      exact Nat.cast_nonneg _
    calc ((values.length : ℚ) - 1) * p ≤ ((values.length : ℚ) - 1) * 1 :=
          mul_le_mul_of_nonneg_left hp1 hnn
      _ = (values.length : ℚ) - 1 := mul_one _
  have hf0 : (0 : ℤ) ≤ ⌊((values.length - 1 : ℕ) : ℚ) * p⌋ := Int.floor_nonneg.mpr hk0
  have hfc : ⌊((values.length - 1 : ℕ) : ℚ) * p⌋ ≤ ⌈((values.length - 1 : ℕ) : ℚ) * p⌉ :=
    Int.floor_le_ceil _
  have hc0 : (0 : ℤ) ≤ ⌈((values.length - 1 : ℕ) : ℚ) * p⌉ := le_trans hf0 hfc
  have hcle : ⌈((values.length - 1 : ℕ) : ℚ) * p⌉ ≤ (values.length : ℤ) - 1 := by
    rw [Int.ceil_le]
    push_cast
    push_cast at hkle
    exact hkle
  have hftn : (⌊((values.length - 1 : ℕ) : ℚ) * p⌋).toNat < (percentileSorted values).length := by
    rw [hslen]
    omega
  have hctn : (⌈((values.length - 1 : ℕ) : ℚ) * p⌉).toNat < (percentileSorted values).length := by
    rw [hslen]
    omega
  rw [percentile, if_neg hn]
  simp only [specPercentileFormula]
  rw [hslen, ← hcast, ratFloor_eq_floor, ratCeil_eq_ceil]
  by_cases heq : ⌊((values.length - 1 : ℕ) : ℚ) * p⌋ = ⌈((values.length - 1 : ℕ) : ℚ) * p⌉
  · rw [if_pos heq, if_pos heq]
    rw [pyGet_nonneg _ _ hf0 hftn]
  · rw [if_neg heq, if_neg heq]
    rw [pyGet_nonneg _ _ hf0 hftn, pyGet_nonneg _ _ hc0 hctn]

/-- C4: `percentile` returns `None` on an empty input (never a default
number); on `[x]` it returns `x` for every `p ∈ [0, 1]`; on a non-empty
input it sorts the values ascending and, with `k = (n-1)*p`, returns
the element at `k` when `k` is an exact index and otherwise
`sorted[⌊k⌋]*(⌈k⌉-k) + sorted[⌈k⌉]*(k-⌊k⌋)` — the spec-side formula
`specPercentileFormula`; in particular
`percentile [1,2,3,4] 0.5 = 2.5`. -/
theorem percentile_matches_spec :
    (∀ p : ℚ, percentile [] p = none) ∧
    (∀ x p : ℚ, 0 ≤ p → p ≤ 1 → percentile [x] p = some x) ∧
    (∀ (values : List ℚ) (p : ℚ), values ≠ [] → 0 ≤ p → p ≤ 1 →
       percentile values p = some (specPercentileFormula (percentileSorted values) p)) ∧
    percentile [1, 2, 3, 4] (mkRat 1 2) = some (mkRat 5 2) := by
  refine ⟨fun p => rfl, fun x p hp0 hp1 => ?_, percentile_formula, by with_unfolding_all rfl⟩
  rw [percentile_formula [x] p (by simp) hp0 hp1]
  have hx : percentileSorted [x] = [x] := rfl
  rw [hx]
  simp [specPercentileFormula]

/-- Witness for `percentile_matches_spec` at `[7]` and `[1,2,3,4]` with
`p = 1/2`. -/
theorem percentile_matches_spec_witness :
    ((0 : ℚ) ≤ mkRat 1 2 ∧ (mkRat 1 2 : ℚ) ≤ 1) ∧
    percentile [(7 : ℚ)] (mkRat 1 2) = some 7 ∧
    (([1, 2, 3, 4] : List ℚ) ≠ [] ∧
     percentile [1, 2, 3, 4] (mkRat 1 2) =
       some (specPercentileFormula (percentileSorted [1, 2, 3, 4]) (mkRat 1 2))) :=
  ⟨⟨by decide, by decide⟩,
   percentile_matches_spec.2.1 7 (mkRat 1 2) (by decide) (by decide),
   ⟨by decide,
     percentile_matches_spec.2.2.1 [1, 2, 3, 4] (mkRat 1 2) (by decide) (by decide) (by decide)⟩⟩

/-- C10: `percentile` sorts its argument in place — after a call on a
non-empty list the caller's list (`percentileSorted values`) is an
ascending permutation of the original multiset — and the returned value
is invariant under any permutation of the input. -/
theorem percentile_sorts_in_place :
    (∀ values : List ℚ, values ≠ [] →
       (percentileSorted values).Perm values ∧
       List.Sorted (fun a b : ℚ => a ≤ b) (percentileSorted values)) ∧
    (∀ (l₁ l₂ : List ℚ) (p : ℚ), l₁.Perm l₂ → percentile l₁ p = percentile l₂ p) := by
  have hsorted : ∀ values : List ℚ,
      List.Sorted (fun a b : ℚ => a ≤ b) (percentileSorted values) :=
    fun values => List.sorted_insertionSort _ values
  have hperm : ∀ values : List ℚ, (percentileSorted values).Perm values :=
    fun values => List.perm_insertionSort _ values
  refine ⟨fun values _ => ⟨hperm values, hsorted values⟩, fun l₁ l₂ p h => ?_⟩
  have hlen : l₁.length = l₂.length := h.length_eq
  have hps : percentileSorted l₁ = percentileSorted l₂ :=
    List.eq_of_perm_of_sorted (((hperm l₁).trans h).trans (hperm l₂).symm)
      (hsorted l₁) (hsorted l₂)
  simp only [percentile, hlen, hps]

/-- Witness for `percentile_sorts_in_place` at the list `[2, 1]` and
its permutation `[1, 2]`. -/
theorem percentile_sorts_in_place_witness :
    (([2, 1] : List ℚ) ≠ [] ∧
     (percentileSorted [2, 1]).Perm ([2, 1] : List ℚ) ∧
     List.Sorted (fun a b : ℚ => a ≤ b) (percentileSorted [2, 1])) ∧
    (([2, 1] : List ℚ).Perm ([1, 2] : List ℚ) ∧
     percentile [2, 1] (mkRat 1 2) = percentile [1, 2] (mkRat 1 2)) :=
  ⟨⟨by decide, (percentile_sorts_in_place.1 [2, 1] (by decide)).1,
      (percentile_sorts_in_place.1 [2, 1] (by decide)).2⟩,
   ⟨List.Perm.swap 1 2 [],
     percentile_sorts_in_place.2 [2, 1] [1, 2] (mkRat 1 2) (List.Perm.swap 1 2 [])⟩⟩
